import Mathlib

/-!
Verification of the ComfyUI-desktop installation / supervision subsystem.

Shallow embedding of:
* `VirtualEnvironment.hasRequirements` dry-run output classification
  (src/virtualEnvironment.ts, lines 534-609), including the three
  JavaScript regexes, modelled character-by-character with the exact
  ECMAScript character classes;
* `parseExitCode` from the pty sentinel protocol (lines 391-402),
  with `Number.parseInt` modelled per the ECMAScript algorithm;
* `ComfyServer.buildLaunchArgs` / `launchArgs` CLI argument composition
  and the JavaScript object-spread merge;
* the `ComfyServer.start` / `kill` promise race as a step function on
  supervisor state;
* the `VirtualEnvironment` pty-channel lifecycle (the "#using" teardown);
* `InstallationManager.ensureInstalled` flow selection.
-/

/-- ECMAScript `\s`: WhiteSpace plus LineTerminator characters. -/
def jsWhitespace (c : Char) : Bool :=
  let n := c.toNat
  n == 0x20 || n == 0x09 || n == 0x0A || n == 0x0B || n == 0x0C || n == 0x0D ||
  n == 0xA0 || n == 0x1680 || (0x2000 ≤ n && n ≤ 0x200A) ||
  n == 0x2028 || n == 0x2029 || n == 0x202F || n == 0x205F || n == 0x3000 || n == 0xFEFF

/-- ECMAScript LineTerminator: the characters that `.` does not match. -/
def jsLineTerminator (c : Char) : Bool :=
  let n := c.toNat
  n == 0x0A || n == 0x0D || n == 0x2028 || n == 0x2029

/-- ECMAScript `\w`: ASCII letters, digits and underscore. -/
def jsWordChar (c : Char) : Bool :=
  (Char.toNat 'a' ≤ c.toNat && c.toNat ≤ Char.toNat 'z') ||
  (Char.toNat 'A' ≤ c.toNat && c.toNat ≤ Char.toNat 'Z') ||
  (Char.toNat '0' ≤ c.toNat && c.toNat ≤ Char.toNat '9') ||
  c == '_'

/-- Decides whether the first list is a prefix of the second. -/
def hasPrefixCL : List Char → List Char → Bool
  | [], _ => true
  | _ :: _, [] => false
  | p :: ps, c :: cs => p == c && hasPrefixCL ps cs

/-- JavaScript `String.prototype.split` with separator `"\n"`. -/
def splitOnNl : List Char → List (List Char)
  | [] => [[]]
  | c :: cs =>
    if c == '\n' then [] :: splitOnNl cs
    else
      match splitOnNl cs with
      | l :: ls => (c :: l) :: ls
      | [] => [[c]]

/-! ## hasRequirements: the `hasAllPackages` predicate

`output.search(/\bWould make no changes\s+$/) !== -1`
(src/virtualEnvironment.ts line 555): somewhere in the string, at a word
boundary, the literal phrase occurs followed by one-or-more whitespace
characters running to the end of the string. -/

/-- The literal phrase of the "no changes" regex. -/
def noChangesPhrase : List Char := "Would make no changes".data

/-- Match of `Would make no changes\s+$` starting exactly at this suffix. -/
def noChangesMatchAt (s : List Char) : Bool :=
  hasPrefixCL noChangesPhrase s &&
    (let rest := s.drop noChangesPhrase.length
     !rest.isEmpty && rest.all jsWhitespace)

/-- Scan every suffix; `prevWord` records whether the character before the
suffix is a `\w` character (for the `\b` anchor; the phrase starts with a
word character, so the boundary holds iff the previous character is not). -/
def hasAllPackagesAux (prevWord : Bool) : List Char → Bool
  | [] => false
  | c :: cs => (!prevWord && noChangesMatchAt (c :: cs)) || hasAllPackagesAux (jsWordChar c) cs

/-- `hasAllPackages` from `VirtualEnvironment.hasRequirements`
(src/virtualEnvironment.ts lines 554-558). -/
def hasAllPackages (output : String) : Bool :=
  hasAllPackagesAux false output.data

/-! ## hasRequirements: the `isManagerUpgrade` predicate

`/\bWould install [1-3] packages?(\s+\+ (toml|uv|chardet)==[\d.]+){1,3}\s*$/`
tested against the manager dry-run output (lines 561-566). -/

/-- A character of `[\d.]`. -/
def versionChar (c : Char) : Bool :=
  (Char.toNat '0' ≤ c.toNat && c.toNat ≤ Char.toNat '9') || c == '.'

/-- One repetition of `\s+\+ (toml|uv|chardet)==[\d.]+`.
Each sub-pattern boundary is forced (the character after `\s+` must be the
non-whitespace `+`; the character after `[\d.]+` must be whitespace or the
end), so maximal munch is the unique match. -/
def mgrRep (s : List Char) : Option (List Char) :=
  let ws := s.takeWhile jsWhitespace
  if ws.isEmpty then none
  else
    match s.dropWhile jsWhitespace with
    | '+' :: ' ' :: s2 =>
      let tryPkg (nm : List Char) : Option (List Char) :=
        if hasPrefixCL (nm ++ ['=', '=']) s2 then some (s2.drop (nm.length + 2)) else none
      match tryPkg "toml".data <|> tryPkg "uv".data <|> tryPkg "chardet".data with
      | none => none
      | some s3 =>
        let ds := s3.takeWhile versionChar
        if ds.isEmpty then none else some (s3.dropWhile versionChar)
    | _ => none

/-- `(\s+\+ (toml|uv|chardet)==[\d.]+){1,3}\s*$` with `r` repetitions still
allowed and `doneOne` recording that at least one has matched. A remainder
that is all whitespace cannot start another repetition, so acceptance and
continuation never overlap. -/
def mgrReps : Nat → Bool → List Char → Bool
  | 0, doneOne, s => doneOne && s.all jsWhitespace
  | r + 1, doneOne, s =>
    (doneOne && s.all jsWhitespace) ||
      (match mgrRep s with
       | some s2 => mgrReps r true s2
       | none => false)

/-- Match of the manager-upgrade regex starting exactly at this suffix
(after the `\b` anchor). -/
def mgrMatchAt (s : List Char) : Bool :=
  if hasPrefixCL "Would install ".data s then
    match s.drop "Would install ".data.length with
    | d :: rest =>
      if (d == '1' || d == '2' || d == '3') && hasPrefixCL " package".data rest then
        let rest2 := rest.drop " package".data.length
        let rest3 := match rest2 with
          | 's' :: r => r
          | _ => rest2
        mgrReps 3 false rest3
      else false
    | [] => false
  else false

/-- Scan for the manager-upgrade regex at any position (the `\b` anchor is
handled as in `hasAllPackagesAux`). -/
def isManagerUpgradeAux (prevWord : Bool) : List Char → Bool
  | [] => false
  | c :: cs => (!prevWord && mgrMatchAt (c :: cs)) || isManagerUpgradeAux (jsWordChar c) cs

/-- `isManagerUpgrade` from `VirtualEnvironment.hasRequirements`
(src/virtualEnvironment.ts lines 561-566). -/
def isManagerUpgrade (output : String) : Bool :=
  isManagerUpgradeAux false output.data

/-! ## hasRequirements: the `isCoreUpgrade` predicate (lines 569-592) -/

/-- The fixed allow-list shared by the removal lookahead and the addition
check of `isCoreUpgrade`. -/
def coreAllowList : List (List Char) :=
  ["aiohttp".data, "av".data, "yarl".data, "comfyui-workflow-templates".data,
   "comfyui-embedded-docs".data, "pydantic".data, "pydantic-core".data,
   "pydantic-settings".data, "annotated-types".data, "typing-inspection".data,
   "alembic".data, "sqlalchemy".data, "greenlet".data, "mako".data,
   "python-dotenv".data]

/-- `.*==` after the lookahead: `==` must occur with no LineTerminator
before it. -/
def eqEqBeforeTerminator : List Char → Bool
  | '=' :: '=' :: _ => true
  | c :: cs => if jsLineTerminator c then false else eqEqBeforeTerminator cs
  | [] => false

/-- `line.search(/^\s*- (?!allow...).*==/) !== -1`: after maximal leading
whitespace the line reads `- `, no allow-listed name is a prefix of the
remainder (negative lookahead), and `==` occurs before any terminator. -/
def badRemovalLine (line : List Char) : Bool :=
  match line.dropWhile jsWhitespace with
  | '-' :: ' ' :: r =>
    !(coreAllowList.any fun nm => hasPrefixCL nm r) && eqEqBeforeTerminator r
  | _ => false

/-- `line.search(/^\s*\+ /) !== -1`. -/
def additionLine (line : List Char) : Bool :=
  match line.dropWhile jsWhitespace with
  | '+' :: ' ' :: _ => true
  | _ => false

/-- `line.search(/^\s*\+ (allow...)==/) !== -1`: an addition of an
allow-listed package (the name must be immediately followed by `==`). -/
def goodAdditionLine (line : List Char) : Bool :=
  match line.dropWhile jsWhitespace with
  | '+' :: ' ' :: r => coreAllowList.any fun nm => hasPrefixCL (nm ++ ['=', '=']) r
  | _ => false

/-- The `for` loop of `isCoreUpgrade`: early `return false` on a bad
removal line or a non-allow-listed addition line, counting additions. -/
def isCoreUpgradeLoop : List (List Char) → Nat → Bool
  | [], adds => decide (adds > 0)
  | line :: rest, adds =>
    if badRemovalLine line then false
    else if additionLine line then
      if goodAdditionLine line then isCoreUpgradeLoop rest (adds + 1) else false
    else isCoreUpgradeLoop rest adds

/-- `isCoreUpgrade` from `VirtualEnvironment.hasRequirements`
(src/virtualEnvironment.ts lines 569-592). -/
def isCoreUpgrade (output : String) : Bool :=
  isCoreUpgradeLoop (splitOnNl output.data) 0

/-! ## hasRequirements: combination (lines 594-608) -/

/-- Return type of `VirtualEnvironment.hasRequirements`:
`'OK' | 'error' | 'package-upgrade'`. -/
inductive RequirementsStatus
  | OK
  | error
  | packageUpgrade
deriving DecidableEq, Repr

/-- The pure classification at the end of `hasRequirements`
(src/virtualEnvironment.ts lines 597-608), applied to the two captured
dry-run outputs. -/
def hasRequirementsClassify (coreOutput managerOutput : String) : RequirementsStatus :=
  let coreOk := hasAllPackages coreOutput
  let managerOk := hasAllPackages managerOutput
  let upgradeCore := !coreOk && isCoreUpgrade coreOutput
  let upgradeManager := !managerOk && isManagerUpgrade managerOutput
  if (managerOk && upgradeCore) || (coreOk && upgradeManager) || (upgradeCore && upgradeManager) then
    .packageUpgrade
  else if coreOk && managerOk then .OK
  else .error

example : hasAllPackages "Would make no changes\n" = true := by decide
example : hasAllPackages "Would make no changes" = false := by decide
example : hasAllPackages "xWould make no changes\n" = false := by decide
example : hasAllPackages " Audit:  Would make no changes \n" = true := by decide
example : isManagerUpgrade "Would install 2 packages\n + toml==0.10.2\n + uv==0.5.1\n" = true := by
  decide
example : isManagerUpgrade "Would install 1 package\n + chardet==5.2.0" = true := by decide
example : isManagerUpgrade "Would install 2 packages\n + toml==0.10.2\n + lxml==5.0\n" = false := by
  decide
example : isCoreUpgrade "Resolved\n - aiohttp==3.9.0\n + aiohttp==3.10.0\n" = true := by decide
example : isCoreUpgrade " - somepkg==1.0\n + aiohttp==3.10.0\n" = false := by decide
example : isCoreUpgrade "Would make no changes\n" = false := by decide
example : isCoreUpgrade "+ aiohttp==1.0\nWould make no changes\n" = true := by decide
example : hasAllPackages "+ aiohttp==1.0\nWould make no changes\n" = true := by decide
example :
    hasRequirementsClassify "+ aiohttp==1.0\nWould make no changes\n" "Would make no changes\n" =
      .OK := by decide

/-! ## The pty sentinel protocol: `parseExitCode` (src/virtualEnvironment.ts lines 391-402)

`Number.parseInt(exit)` is modelled by the ECMAScript `parseInt` algorithm
with an undefined radix: strip leading whitespace, read an optional sign,
switch to base 16 on a `0x`/`0X` prefix, then take the longest prefix of
radix digits; no digits means `NaN`. The mathematical integer value is
returned exactly (rounding to a 64-bit float only differs above 2^53,
far outside any process exit code). -/

/-- Digit test for radix 10 or 16. -/
def isRadixDigit (radix : Nat) (c : Char) : Bool :=
  (Char.toNat '0' ≤ c.toNat && c.toNat ≤ Char.toNat '9') ||
    (radix == 16 &&
      ((Char.toNat 'a' ≤ c.toNat && c.toNat ≤ Char.toNat 'f') ||
       (Char.toNat 'A' ≤ c.toNat && c.toNat ≤ Char.toNat 'F')))

/-- Numeric value of a digit character. -/
def digitVal (c : Char) : Nat :=
  if Char.toNat '0' ≤ c.toNat && c.toNat ≤ Char.toNat '9' then c.toNat - Char.toNat '0'
  else if Char.toNat 'a' ≤ c.toNat && c.toNat ≤ Char.toNat 'f' then c.toNat - Char.toNat 'a' + 10
  else c.toNat - Char.toNat 'A' + 10

/-- Value of a digit string in the given radix. -/
def digitsToNat (radix : Nat) (ds : List Char) : Nat :=
  ds.foldl (fun acc c => acc * radix + digitVal c) 0

/-- ECMAScript `Number.parseInt(s)` (radix argument omitted), as the exact
mathematical integer; `none` is `NaN`. -/
def parseIntJS (s : String) : Option Int :=
  let t := s.data.dropWhile jsWhitespace
  let (sign, t1) : Int × List Char :=
    match t with
    | '-' :: r => (-1, r)
    | '+' :: r => (1, r)
    | _ => (1, t)
  let (radix, t2) : Nat × List Char :=
    if hasPrefixCL ['0', 'x'] t1 || hasPrefixCL ['0', 'X'] t1 then (16, t1.drop 2)
    else (10, t1)
  let ds := t2.takeWhile (isRadixDigit radix)
  if ds.isEmpty then none else some (sign * (digitsToNat radix ds : Nat))

/-- `parseExitCode` from `runPtyCommandAsync`
(src/virtualEnvironment.ts lines 391-402). -/
def parseExitCode (exit : String) : Int :=
  if exit = "True" then 0
  else if exit = "False" then -999
  else
    match parseIntJS exit with
    | some exitCode => exitCode
    | none => -998

example : parseExitCode "True" = 0 := by decide
example : parseExitCode "False" = -999 := by decide
example : parseExitCode "1" = 1 := by decide
example : parseExitCode " -17" = -17 := by decide
example : parseExitCode "0x1A" = 26 := by decide
example : parseExitCode "12abc" = 12 := by decide
example : parseExitCode "garbage" = -998 := by decide
example : parseExitCode "" = -998 := by decide

/-! ## CLI argument composition (src/unnamed/part_006, `ComfyServer`)

`launchArgs` builds `buildLaunchArgs({...coreLaunchArgs, ...serverArgs})`
(lines 107-113). The JavaScript object spread is modelled on association
lists with string keys: the value of a key present in both objects is the
value from the later (`serverArgs`) spread; keys keep the insertion order
of the first object that introduced them. -/

namespace ComfyServer

/-- First-match lookup in an association list (JavaScript records have
unique keys, so first-match and last-match agree on well-formed inputs). -/
def lookupRecord : List (String × String) → String → Option String
  | [], _ => none
  | (k, v) :: rest, key => if k = key then some v else lookupRecord rest key

/-- The JavaScript spread merge `{...core, ...user}` on string-keyed
records. -/
def mergeRecords (core user : List (String × String)) : List (String × String) :=
  (core.map fun p => (p.1, (lookupRecord user p.1).getD p.2)) ++
    user.filter fun p => (lookupRecord core p.1).isNone

/-- `ComfyServer.buildLaunchArgs` (src/unnamed/part_006 lines 100-105):
`--key value` pairs, with empty strings filtered out afterwards so an
empty value yields a bare boolean flag. -/
def buildLaunchArgs (args : List (String × String)) : List String :=
  (args.flatMap fun p => ["--" ++ p.1, p.2]).filter (· ≠ "")

/-- `ComfyServer.launchArgs` (src/unnamed/part_006 lines 107-113). -/
def launchArgs (mainScriptPath : String) (coreLaunchArgs serverArgs : List (String × String)) :
    List String :=
  mainScriptPath :: buildLaunchArgs (mergeRecords coreLaunchArgs serverArgs)

example : buildLaunchArgs [("cpu", ""), ("port", "8188")] = ["--cpu", "--port", "8188"] := by decide
example :
    buildLaunchArgs (mergeRecords [("port", "8188")] [("port", "9999")]) = ["--port", "9999"] := by
  decide

/-! ### The `start()` promise race (src/unnamed/part_006 lines 115-180)

`start()` throws synchronously when a process is already associated.
Otherwise it clears `timedOutWhilstStarting`, spawns the python process,
and settles on the first of four events: the `error` event of the child
process, its `exit` event, success of the HTTP health probe on `/queue`,
or expiry of the 30-minute `waitOn` deadline. The step function takes the
winning event as a parameter. -/

/-- Supervisor state: the `timedOutWhilstStarting` flag and the process
handle `comfyServerProcess` (a pid, or `none` for `null`). -/
structure ServerState where
  timedOutWhilstStarting : Bool
  comfyServerProcess : Option Nat
deriving DecidableEq, Repr

/-- `ComfyServer.isRunning` (src/unnamed/part_006 lines 71-73). -/
def isRunning (s : ServerState) : Bool :=
  s.comfyServerProcess.isSome

/-- The first event to settle the `start()` promise. -/
inductive StartEvent
  | procError
  | procExit (code : Option Int) (signal : Option String)
  | healthOk
  | timeout
deriving DecidableEq, Repr

/-- How `start()` settled. `threwAlreadyRunning` is the synchronous throw
of "ComfyUI server is already running"; `rejectedExit` carries the
`(code, signal)` of the template message `Python process exited with code
... and signal ...`; `rejectedTimeout` is "Python server failed to start
within timeout.". -/
inductive StartOutcome
  | threwAlreadyRunning
  | resolved
  | rejectedSpawnError
  | rejectedExit (code : Option Int) (signal : Option String)
  | rejectedTimeout
deriving DecidableEq, Repr

/-- Result of one `start()` call: final supervisor state, settlement,
whether a child process was spawned, and whether the `error` listener was
detached (`comfyServerProcess.off("error", rejectOnError)`). -/
structure StartResult where
  state : ServerState
  outcome : StartOutcome
  spawned : Bool
  errorHandlerDetached : Bool
deriving DecidableEq, Repr

/-- `ComfyServer.start` (src/unnamed/part_006 lines 115-180) as a step
function on supervisor state. `pid` is the handle of the process that
would be spawned; `ev` is the first event to settle the race. -/
def start (s : ServerState) (pid : Nat) (ev : StartEvent) : StartResult :=
  if isRunning s then
    { state := s, outcome := .threwAlreadyRunning, spawned := false, errorHandlerDetached := false }
  else
    let s1 : ServerState := { timedOutWhilstStarting := false, comfyServerProcess := some pid }
    match ev with
    | .procError =>
      { state := { s1 with comfyServerProcess := none }, outcome := .rejectedSpawnError,
        spawned := true, errorHandlerDetached := false }
    | .procExit code signal =>
      let s2 : ServerState := { s1 with comfyServerProcess := none }
      if code = some 0 then
        { state := s2, outcome := .resolved, spawned := true, errorHandlerDetached := false }
      else
        { state := s2, outcome := .rejectedExit code signal, spawned := true,
          errorHandlerDetached := false }
    | .healthOk =>
      { state := s1, outcome := .resolved, spawned := true, errorHandlerDetached := true }
    | .timeout =>
      { state := { s1 with timedOutWhilstStarting := true }, outcome := .rejectedTimeout,
        spawned := true, errorHandlerDetached := false }

end ComfyServer

/-! ## VirtualEnvironment pty-channel lifecycle (src/virtualEnvironment.ts)

The shared interactive shell handle is `uvPty`. `#using` (lines 695-705)
and the identical inline `finally` of `create` (lines 212-222) kill the
pty process and clear the handle after the wrapped operation, on both the
success and the exception path. Operations are modelled as state
transformers that may themselves spawn or replace the pty handle. -/

namespace VirtualEnvironment

/-- The pty-relevant state: the `uvPty` handle (a pid) and, for the model,
the list of pids that have been passed to `process.kill`. -/
structure VEState where
  uvPty : Option Nat
  killedPids : List Nat
deriving DecidableEq, Repr

/-- An operation that may use the pty channel: it returns a value or
throws, and leaves a successor state (it may have spawned a pty). -/
abbrev VEOp (α : Type) : Type := VEState → Except String α × VEState

/-- The `finally` block of `#using` and of `create`: if `uvPty` is set,
`process.kill(pid)` and clear the handle (a cleared handle stays
cleared). -/
def teardownPty (s : VEState) : VEState :=
  { uvPty := none,
    killedPids :=
      match s.uvPty with
      | some pid => pid :: s.killedPids
      | none => s.killedPids }

/-- `VirtualEnvironment.#using` (src/virtualEnvironment.ts lines 695-705). -/
def usingPty {α : Type} (command : VEOp α) (s : VEState) : Except String α × VEState :=
  let (r, s1) := command s
  (r, teardownPty s1)

/-- `VirtualEnvironment.create` (src/virtualEnvironment.ts lines 212-222):
`createEnvironment` wrapped in the same try/finally teardown. -/
def create (createEnvironment : VEOp Unit) (s : VEState) : Except String Unit × VEState :=
  usingPty createEnvironment s

/-- `VirtualEnvironment.createVenv` (src/virtualEnvironment.ts lines
678-687): `#using(createVenvWithPython)`, catching any error as `false`. -/
def createVenv (createVenvWithPython : VEOp Unit) (s : VEState) : Bool × VEState :=
  match usingPty createVenvWithPython s with
  | (.ok _, s1) => (true, s1)
  | (.error _, s1) => (false, s1)

/-- `VirtualEnvironment.upgradePip` (src/virtualEnvironment.ts lines
664-672): `#using(ensurePip)`, catching any error as `false`. -/
def upgradePip (ensurePip : VEOp Unit) (s : VEState) : Bool × VEState :=
  match usingPty ensurePip s with
  | (.ok _, s1) => (true, s1)
  | (.error _, s1) => (false, s1)

/-- `VirtualEnvironment.reinstallRequirements` (src/virtualEnvironment.ts
lines 641-658): `#using(manualInstall)`; on error, recreate the venv,
re-bootstrap pip, and retry `#using(manualInstall)` once. -/
def reinstallRequirements (manualInstall createVenvWithPython ensurePip : VEOp Unit)
    (s : VEState) : Except String Bool × VEState :=
  match usingPty manualInstall s with
  | (.ok _, s1) => (.ok true, s1)
  | (.error _, s1) =>
    let (created, s2) := createVenv createVenvWithPython s1
    if created then
      let (pipEnsured, s3) := upgradePip ensurePip s2
      if pipEnsured then
        match usingPty manualInstall s3 with
        | (.ok _, s4) => (.ok true, s4)
        | (.error e, s4) => (.error e, s4)
      else (.ok false, s3)
    else (.ok false, s2)

/-- `TorchDeviceType` (`cpu`, `nvidia`, `mps`, `unsupported`). -/
inductive TorchDevice
  | cpu
  | nvidia
  | mps
  | unsupported
deriving DecidableEq, Repr

/-- The three installation steps of `createEnvironment`. -/
inductive InstallStep
  | createVenvWithPython
  | ensurePip
  | installRequirements
deriving DecidableEq, Repr

/-- `VirtualEnvironment.createEnvironment` (src/virtualEnvironment.ts
lines 237-281) as step selection: the unsupported-device shortcut and the
already-exists shortcut return success without running any step;
otherwise the three steps run in order, stopping at the first failure.
Returns the outcome together with the list of steps that were run. -/
def createEnvironmentSteps (selectedDevice : TorchDevice) (venvExists : Bool)
    (runStep : InstallStep → Except String Unit) : Except String Unit × List InstallStep :=
  if selectedDevice = .unsupported then (.ok (), [])
  else if venvExists then (.ok (), [])
  else
    match runStep .createVenvWithPython with
    | .error e => (.error e, [.createVenvWithPython])
    | .ok _ =>
      match runStep .ensurePip with
      | .error e => (.error e, [.createVenvWithPython, .ensurePip])
      | .ok _ =>
        match runStep .installRequirements with
        | .error e => (.error e, [.createVenvWithPython, .ensurePip, .installRequirements])
        | .ok _ => (.ok (), [.createVenvWithPython, .ensurePip, .installRequirements])

/-- Result of one dry-run `uv pip install --dry-run -r <file>` invocation:
exit code (`none` for `null`, i.e. killed by a signal), the signal, and
the combined stdout/stderr text. -/
structure DryRunResult where
  exitCode : Option Int
  signal : Option String
  output : String

/-- The `checkRequirements` closure inside `hasRequirements`
(src/virtualEnvironment.ts lines 535-552): throws on a non-zero (or null)
exit code — source message `Failed to get packages: Exit code ...,
signal ...` — and on empty combined output. -/
def checkRequirements (r : DryRunResult) : Except String String :=
  if r.exitCode ≠ some 0 then .error "Failed to get packages: non-zero exit code"
  else if r.output = "" then .error "Failed to get packages: uv output was empty"
  else .ok r.output

/-- `VirtualEnvironment.hasRequirements` (src/virtualEnvironment.ts lines
534-609): run both dry-run checks (core first), propagate their throws,
then classify the two captured outputs. -/
def hasRequirements (core manager : DryRunResult) : Except String RequirementsStatus :=
  match checkRequirements core with
  | .error e => .error e
  | .ok coreOutput =>
    match checkRequirements manager with
    | .error e => .error e
    | .ok managerOutput => .ok (hasRequirementsClassify coreOutput managerOutput)

end VirtualEnvironment

/-! ## InstallationManager.ensureInstalled (src/unnamed/part_005 lines 312-384) -/

namespace InstallationManager

/-- Persisted installation lifecycle state (absence of a persisted record
is modelled as `none` at the call site). -/
inductive InstallState
  | started
  | installed
  | upgraded
deriving DecidableEq, Repr

/-- The top-level flows `ensureInstalled` can dispatch to. -/
inductive ManagerAction
  | freshInstall
  | setReinstallHandler
  | validateInstallation
deriving DecidableEq, Repr

/-- `InstallationManager.resumeInstallation` (src/unnamed/part_005 lines
380-384): delegates to `freshInstall`. -/
def resumeInstallation : List ManagerAction :=
  [.freshInstall]

/-- `InstallationManager.ensureInstalled` (src/unnamed/part_005 lines
312-327) as flow selection on the persisted state. -/
def ensureInstalled : Option InstallState → List ManagerAction
  | none => [.freshInstall]
  | some .started => resumeInstallation
  | some .installed => [.setReinstallHandler, .validateInstallation]
  | some .upgraded => [.setReinstallHandler, .validateInstallation]

end InstallationManager

/-! # Theorems -/

/-! ## C1: launch-argument precedence -/

/-- Lookup in the overridden-core part of the spread merge: keys are
unchanged and each value is replaced by the user value when present. -/
theorem lookupRecord_map_getD (user core : List (String × String)) (k : String) :
    ComfyServer.lookupRecord (core.map fun p => (p.1, (ComfyServer.lookupRecord user p.1).getD p.2)) k =
      (ComfyServer.lookupRecord core k).map fun v => (ComfyServer.lookupRecord user k).getD v := by
  induction core with
  | nil => rfl
  | cons p rest ih =>
    obtain ⟨k0, v0⟩ := p
    by_cases hk : k0 = k
    · subst hk
      simp [ComfyServer.lookupRecord]
    · simp [ComfyServer.lookupRecord, hk, ih]

/-- Lookup distributes over append when the first list has the key. -/
theorem lookupRecord_append_some (a b : List (String × String)) (k : String) (v : String)
    (h : ComfyServer.lookupRecord a k = some v) :
    ComfyServer.lookupRecord (a ++ b) k = some v := by
  induction a with
  | nil => simp [ComfyServer.lookupRecord] at h
  | cons p rest ih =>
    obtain ⟨k0, v0⟩ := p
    by_cases hk : k0 = k
    · subst hk
      simp [ComfyServer.lookupRecord] at h ⊢
      exact h
    · simp [ComfyServer.lookupRecord, hk] at h ⊢
      exact ih h

/-- Lookup distributes over append when the first list lacks the key. -/
theorem lookupRecord_append_none (a b : List (String × String)) (k : String)
    (h : ComfyServer.lookupRecord a k = none) :
    ComfyServer.lookupRecord (a ++ b) k = ComfyServer.lookupRecord b k := by
  induction a with
  | nil => rfl
  | cons p rest ih =>
    obtain ⟨k0, v0⟩ := p
    by_cases hk : k0 = k
    · subst hk
      simp [ComfyServer.lookupRecord] at h
    · simp [ComfyServer.lookupRecord, hk] at h ⊢
      exact ih h

/-- Filtering the user record by "key not in core" preserves lookup of any
key the core record lacks. -/
theorem lookupRecord_filter_not_in_core (core user : List (String × String)) (k : String)
    (hc : ComfyServer.lookupRecord core k = none) :
    ComfyServer.lookupRecord (user.filter fun p => (ComfyServer.lookupRecord core p.1).isNone) k =
      ComfyServer.lookupRecord user k := by
  induction user with
  | nil => rfl
  | cons p rest ih =>
    obtain ⟨k1, v1⟩ := p
    by_cases hk : k1 = k
    · subst hk
      simp [List.filter_cons, hc, ComfyServer.lookupRecord]
    · by_cases hp : (ComfyServer.lookupRecord core k1).isNone
      · simp [List.filter_cons, hp, ComfyServer.lookupRecord, hk, ih]
      · simp [List.filter_cons, hp, ComfyServer.lookupRecord, hk, ih]

/-- C1 counterexample: the claim says a user-supplied value for a key also
present in the core set never appears — in particular that merging core
port 8188 with user port 9999 yields 8188. The spread `{...core, ...user}`
gives the later (user) spread precedence, so the built vector is exactly
`--port 9999`: the user value appears and the core value does not. -/
theorem C1_core_precedence_counterexample :
    ComfyServer.buildLaunchArgs
        (ComfyServer.mergeRecords [("port", "8188")] [("port", "9999")]) = ["--port", "9999"] ∧
      "8188" ∉
        ComfyServer.buildLaunchArgs
          (ComfyServer.mergeRecords [("port", "8188")] [("port", "9999")]) := by
  constructor
  · rfl
  · decide

/-- C1 (amended): in the final argument map built by `launchArgs`, the
user-supplied (`serverArgs`) flags take precedence on any key collision: a
key present in the user map always carries the user value after the merge,
so a core value for that key never takes effect (e.g. merging core port
8188 with user port 9999 yields 9999). -/
theorem C1_user_args_take_precedence (core user : List (String × String)) (k : String)
    (h : (ComfyServer.lookupRecord user k).isSome = true) :
    ComfyServer.lookupRecord (ComfyServer.mergeRecords core user) k =
      ComfyServer.lookupRecord user k := by
  obtain ⟨uv, huv⟩ := Option.isSome_iff_exists.mp h
  unfold ComfyServer.mergeRecords
  cases hcore : ComfyServer.lookupRecord core k with
  | some cv =>
    have hm := lookupRecord_map_getD user core k
    rw [hcore] at hm
    simp only [Option.map_some'] at hm
    rw [lookupRecord_append_some _ _ _ _ hm, huv]
    simp [Option.getD]
  | none =>
    have hm := lookupRecord_map_getD user core k
    rw [hcore] at hm
    simp only [Option.map_none'] at hm
    rw [lookupRecord_append_none _ _ _ hm]
    exact lookupRecord_filter_not_in_core core user k hcore

/-- C1 witness: the amended precedence theorem applied to the concrete
core/user maps of the claim. -/
theorem C1_user_args_take_precedence_witness :
    (ComfyServer.lookupRecord [("port", "9999")] "port").isSome = true ∧
      ComfyServer.lookupRecord
          (ComfyServer.mergeRecords [("port", "8188")] [("port", "9999")]) "port" =
        ComfyServer.lookupRecord [("port", "9999")] "port" :=
  ⟨by decide, C1_user_args_take_precedence [("port", "8188")] [("port", "9999")] "port" (by decide)⟩

/-! ## C3: sentinel exit-code parsing -/

/-- C3: the sentinel exit-code text `True` maps to 0, `False` maps to the
fixed sentinel -999, any text that `Number.parseInt` accepts maps to that
integer, and any other text maps to the fixed sentinel -998; the function
is total, so no input throws. -/
theorem C3_parseExitCode_spec :
    parseExitCode "True" = 0 ∧
      parseExitCode "False" = -999 ∧
      (∀ (s : String) (n : Int), parseIntJS s = some n → parseExitCode s = n) ∧
      (∀ s : String, parseIntJS s = none → s ≠ "True" → s ≠ "False" → parseExitCode s = -998) := by
  refine ⟨by decide, by decide, ?_, ?_⟩
  · intro s n h
    by_cases hT : s = "True"
    · subst hT
      have : parseIntJS "True" = none := by decide
      rw [this] at h
      exact absurd h (by simp)
    · by_cases hF : s = "False"
      · subst hF
        have : parseIntJS "False" = none := by decide
        rw [this] at h
        exact absurd h (by simp)
      · simp [parseExitCode, hT, hF, h]
  · intro s h hT hF
    simp [parseExitCode, hT, hF, h]

/-- C3 witness: the parse clauses applied to a numeric and an unparsable
sentinel string. -/
theorem C3_parseExitCode_spec_witness :
    parseIntJS "7" = some 7 ∧
      parseExitCode "7" = 7 ∧ parseIntJS "garbage" = none ∧ parseExitCode "garbage" = -998 :=
  ⟨by decide, C3_parseExitCode_spec.2.2.1 "7" 7 (by decide), by decide,
    C3_parseExitCode_spec.2.2.2 "garbage" (by decide) (by decide) (by decide)⟩

/-! ## C4: health probe wins the start race -/

/-- C4: when the server is not already running and the HTTP health probe
succeeds before the child process emits exit or error, `start` resolves
successfully, detaches its error handler, and keeps the (still running)
process associated rather than waiting for its exit. -/
theorem C4_health_probe_resolves (s : ComfyServer.ServerState) (pid : Nat)
    (h : ComfyServer.isRunning s = false) :
    (ComfyServer.start s pid .healthOk).outcome = .resolved ∧
      (ComfyServer.start s pid .healthOk).state.comfyServerProcess = some pid ∧
      (ComfyServer.start s pid .healthOk).errorHandlerDetached = true := by
  simp [ComfyServer.start, h]

/-- C4 witness: the health-probe resolution at a concrete idle state. -/
theorem C4_health_probe_resolves_witness :
    (ComfyServer.start ⟨false, none⟩ 7 .healthOk).outcome = .resolved ∧
      (ComfyServer.start ⟨false, none⟩ 7 .healthOk).state.comfyServerProcess = some 7 ∧
      (ComfyServer.start ⟨false, none⟩ 7 .healthOk).errorHandlerDetached = true :=
  C4_health_probe_resolves ⟨false, none⟩ 7 (by decide)

/-! ## C5: timeout is flagged and the flag is reset per call -/

/-- C5: when the server is not already running, a `start` call that times
out rejects with `timedOutWhilstStarting` set; the flag is reset to false
at the start of the call, so after any non-timeout settlement (crash,
spawn error, or success) it reads false, whatever it was before. -/
theorem C5_timeout_flagged (s : ComfyServer.ServerState) (pid : Nat)
    (h : ComfyServer.isRunning s = false) :
    (ComfyServer.start s pid .timeout).outcome = .rejectedTimeout ∧
      (ComfyServer.start s pid .timeout).state.timedOutWhilstStarting = true ∧
      (∀ (code : Option Int) (signal : Option String),
        (ComfyServer.start s pid (.procExit code signal)).state.timedOutWhilstStarting = false) ∧
      (ComfyServer.start s pid .procError).state.timedOutWhilstStarting = false ∧
      (ComfyServer.start s pid .healthOk).state.timedOutWhilstStarting = false := by
  refine ⟨by simp [ComfyServer.start, h], by simp [ComfyServer.start, h], ?_, by
    simp [ComfyServer.start, h], by simp [ComfyServer.start, h]⟩
  intro code signal
  by_cases hc : code = some 0 <;> simp [ComfyServer.start, h, hc]

/-- C5 witness: a state whose flag is stale-true; the crash path clears
it, and the timeout path sets it with a timeout rejection. -/
theorem C5_timeout_flagged_witness :
    (ComfyServer.start ⟨true, none⟩ 3 .timeout).outcome = .rejectedTimeout ∧
      (ComfyServer.start ⟨true, none⟩ 3 .timeout).state.timedOutWhilstStarting = true ∧
      (ComfyServer.start ⟨true, none⟩ 3 (.procExit (some 1) none)).state.timedOutWhilstStarting =
        false :=
  ⟨(C5_timeout_flagged ⟨true, none⟩ 3 (by decide)).1,
    (C5_timeout_flagged ⟨true, none⟩ 3 (by decide)).2.1,
    (C5_timeout_flagged ⟨true, none⟩ 3 (by decide)).2.2.1 (some 1) none⟩

/-! ## C6: double start fails fast -/

/-- C6: whenever a server process is associated (`isRunning`), a further
`start` call throws "ComfyUI server is already running" no matter which
event would have settled the race, spawns nothing, and leaves the whole
supervisor state unchanged. -/
theorem C6_double_start_throws (s : ComfyServer.ServerState) (pid : Nat)
    (ev : ComfyServer.StartEvent) (h : ComfyServer.isRunning s = true) :
    (ComfyServer.start s pid ev).outcome = .threwAlreadyRunning ∧
      (ComfyServer.start s pid ev).state = s ∧
      (ComfyServer.start s pid ev).spawned = false := by
  simp [ComfyServer.start, h]

/-- C6 witness: a running supervisor refuses a second start. -/
theorem C6_double_start_throws_witness :
    (ComfyServer.start ⟨false, some 5⟩ 9 .healthOk).outcome = .threwAlreadyRunning ∧
      (ComfyServer.start ⟨false, some 5⟩ 9 .healthOk).state = ⟨false, some 5⟩ ∧
      (ComfyServer.start ⟨false, some 5⟩ 9 .healthOk).spawned = false :=
  C6_double_start_throws ⟨false, some 5⟩ 9 .healthOk (by decide)

/-! ## C8: create() is idempotent once the directory exists -/

/-- C8: for any device selection and any behaviour of the underlying
steps, `createEnvironment` on an environment whose directory already
exists returns success without running the venv-creation, pip-bootstrap,
or dependency-install step, so a repeated `create()` is a no-op success. -/
theorem C8_create_idempotent (device : VirtualEnvironment.TorchDevice)
    (runStep : VirtualEnvironment.InstallStep → Except String Unit) :
    VirtualEnvironment.createEnvironmentSteps device true runStep = (.ok (), []) := by
  unfold VirtualEnvironment.createEnvironmentSteps
  by_cases hd : device = .unsupported <;> simp [hd]

/-! ## C9: resuming an interrupted install is the fresh-install flow -/

/-- C9: for a persisted installation in state `started`,
`ensureInstalled` dispatches to `resumeInstallation`, which delegates to
`freshInstall`; the resulting flow is exactly the flow of a fresh
installation and contains no other action. -/
theorem C9_resume_is_fresh_install :
    InstallationManager.ensureInstalled (some .started) =
        InstallationManager.ensureInstalled none ∧
      InstallationManager.resumeInstallation = [InstallationManager.ManagerAction.freshInstall] ∧
      InstallationManager.ensureInstalled (some .started) =
        [InstallationManager.ManagerAction.freshInstall] :=
  ⟨rfl, rfl, rfl⟩

/-! ## C2: dry-run output classification -/

/-- A bad removal line forces the early false return of the
`isCoreUpgrade` loop, whatever the running addition count. -/
theorem isCoreUpgradeLoop_false_of_badRemoval (lines : List (List Char)) (adds : Nat)
    (h : lines.any badRemovalLine = true) :
    isCoreUpgradeLoop lines adds = false := by
  induction lines generalizing adds with
  | nil => simp at h
  | cons L rest ih =>
    rw [List.any_cons, Bool.or_eq_true] at h
    by_cases hb : badRemovalLine L
    · simp [isCoreUpgradeLoop, hb]
    · have hr : rest.any badRemovalLine = true := by
        rcases h with h | h
        · exact absurd h hb
        · exact h
      by_cases ha : additionLine L
      · by_cases hg : goodAdditionLine L
        · simp [isCoreUpgradeLoop, hb, ha, hg, ih _ hr]
        · simp [isCoreUpgradeLoop, hb, ha, hg]
      · simp [isCoreUpgradeLoop, hb, ha, ih _ hr]

/-- C2 counterexample: for the core output
`+ aiohttp==1.0\nWould make no changes\n` and the manager output
`Would make no changes\n`, the manager output is OK and the core output
matches the recognized core upgrade pattern, so the claim requires the
result package-upgrade; the code returns OK, because the upgrade pattern
only counts for an output that does not itself match the no-changes
pattern. -/
theorem C2_hasRequirements_counterexample :
    hasAllPackages "Would make no changes\n" = true ∧
      isCoreUpgrade "+ aiohttp==1.0\nWould make no changes\n" = true ∧
      hasRequirementsClassify "+ aiohttp==1.0\nWould make no changes\n"
          "Would make no changes\n" = RequirementsStatus.OK ∧
      RequirementsStatus.OK ≠ RequirementsStatus.packageUpgrade := by
  refine ⟨by decide, by decide, by decide, by decide⟩

/-- C2 (amended): the classification returns OK exactly when both outputs
match the no-changes pattern; package-upgrade exactly when one output
matches the no-changes pattern and the other does not but matches its
recognized upgrade pattern, or neither matches the no-changes pattern and
both match their upgrade patterns; and error in every other case — in
particular whenever the core output proposes removing a package outside
the fixed allow-list and does not match the no-changes pattern. -/
theorem C2_hasRequirements_classification (core manager : String) :
    (hasRequirementsClassify core manager = RequirementsStatus.OK ↔
        hasAllPackages core = true ∧ hasAllPackages manager = true) ∧
      (hasRequirementsClassify core manager = RequirementsStatus.packageUpgrade ↔
        ((hasAllPackages manager = true ∧ hasAllPackages core = false ∧
            isCoreUpgrade core = true) ∨
          (hasAllPackages core = true ∧ hasAllPackages manager = false ∧
            isManagerUpgrade manager = true) ∨
          (hasAllPackages core = false ∧ isCoreUpgrade core = true ∧
            hasAllPackages manager = false ∧ isManagerUpgrade manager = true))) ∧
      (hasRequirementsClassify core manager = RequirementsStatus.error ↔
        ¬(hasAllPackages core = true ∧ hasAllPackages manager = true) ∧
          ¬((hasAllPackages manager = true ∧ hasAllPackages core = false ∧
              isCoreUpgrade core = true) ∨
            (hasAllPackages core = true ∧ hasAllPackages manager = false ∧
              isManagerUpgrade manager = true) ∨
            (hasAllPackages core = false ∧ isCoreUpgrade core = true ∧
              hasAllPackages manager = false ∧ isManagerUpgrade manager = true))) ∧
      ((splitOnNl core.data).any badRemovalLine = true → hasAllPackages core = false →
        hasRequirementsClassify core manager = RequirementsStatus.error) := by
  refine ⟨?_, ?_, ?_, ?_⟩
  · cases hc : hasAllPackages core <;> cases hm : hasAllPackages manager <;>
      cases hcu : isCoreUpgrade core <;> cases hmu : isManagerUpgrade manager <;>
      simp [hasRequirementsClassify, hc, hm, hcu, hmu]
  · cases hc : hasAllPackages core <;> cases hm : hasAllPackages manager <;>
      cases hcu : isCoreUpgrade core <;> cases hmu : isManagerUpgrade manager <;>
      simp [hasRequirementsClassify, hc, hm, hcu, hmu]
  · cases hc : hasAllPackages core <;> cases hm : hasAllPackages manager <;>
      cases hcu : isCoreUpgrade core <;> cases hmu : isManagerUpgrade manager <;>
      simp [hasRequirementsClassify, hc, hm, hcu, hmu]
  · intro hbad hok
    have hcu : isCoreUpgrade core = false := isCoreUpgradeLoop_false_of_badRemoval _ 0 hbad
    simp [hasRequirementsClassify, hok, hcu]

/-- C2 witness: the removal-line clause applied to a core output that
proposes removing a package outside the allow-list. -/
theorem C2_hasRequirements_classification_witness :
    (splitOnNl ("- somepkg==1.0\n").data).any badRemovalLine = true ∧
      hasAllPackages "- somepkg==1.0\n" = false ∧
      hasRequirementsClassify "- somepkg==1.0\n" "x" = RequirementsStatus.error :=
  ⟨by decide, by decide,
    (C2_hasRequirements_classification "- somepkg==1.0\n" "x").2.2.2 (by decide) (by decide)⟩

/-! ## C7: the pty channel is torn down before the owning call returns -/

/-- The teardown always leaves the pty handle cleared. -/
theorem teardownPty_uvPty (s : VirtualEnvironment.VEState) :
    (VirtualEnvironment.teardownPty s).uvPty = none := rfl

/-- The state returned by `#using` has a cleared pty handle. -/
theorem usingPty_uvPty {α : Type} (cmd : VirtualEnvironment.VEOp α)
    (s : VirtualEnvironment.VEState) :
    (VirtualEnvironment.usingPty cmd s).2.uvPty = none := by
  rcases hc : cmd s with ⟨r, s1⟩
  simp [VirtualEnvironment.usingPty, hc, VirtualEnvironment.teardownPty]

/-- A pty process live at the end of the wrapped command is killed by the
teardown. -/
theorem usingPty_kills {α : Type} (cmd : VirtualEnvironment.VEOp α)
    (s : VirtualEnvironment.VEState) (pid : Nat) (h : (cmd s).2.uvPty = some pid) :
    pid ∈ (VirtualEnvironment.usingPty cmd s).2.killedPids := by
  rcases hc : cmd s with ⟨r, s1⟩
  rw [hc] at h
  simp only [Prod.snd] at h
  simp [VirtualEnvironment.usingPty, hc, VirtualEnvironment.teardownPty, h]

/-- `createVenv` tears down the pty on both outcomes. -/
theorem createVenv_uvPty (cmd : VirtualEnvironment.VEOp Unit) (s : VirtualEnvironment.VEState) :
    (VirtualEnvironment.createVenv cmd s).2.uvPty = none := by
  have h0 := usingPty_uvPty cmd s
  rcases h : VirtualEnvironment.usingPty cmd s with ⟨r, s1⟩
  rw [h] at h0
  cases r <;> simp [VirtualEnvironment.createVenv, h] <;> exact h0

/-- `upgradePip` tears down the pty on both outcomes. -/
theorem upgradePip_uvPty (cmd : VirtualEnvironment.VEOp Unit) (s : VirtualEnvironment.VEState) :
    (VirtualEnvironment.upgradePip cmd s).2.uvPty = none := by
  have h0 := usingPty_uvPty cmd s
  rcases h : VirtualEnvironment.usingPty cmd s with ⟨r, s1⟩
  rw [h] at h0
  cases r <;> simp [VirtualEnvironment.upgradePip, h] <;> exact h0

/-- `reinstallRequirements` tears down the pty on every path. -/
theorem reinstallRequirements_uvPty (mi cv ep : VirtualEnvironment.VEOp Unit)
    (s : VirtualEnvironment.VEState) :
    (VirtualEnvironment.reinstallRequirements mi cv ep s).2.uvPty = none := by
  have hs1 := usingPty_uvPty mi s
  rcases h1 : VirtualEnvironment.usingPty mi s with ⟨r1, s1⟩
  rw [h1] at hs1
  cases r1 with
  | ok v1 =>
    simp [VirtualEnvironment.reinstallRequirements, h1]
    exact hs1
  | error e1 =>
    have hs2 := createVenv_uvPty cv s1
    rcases h2 : VirtualEnvironment.createVenv cv s1 with ⟨created, s2⟩
    rw [h2] at hs2
    cases created with
    | false =>
      simp [VirtualEnvironment.reinstallRequirements, h1, h2]
      exact hs2
    | true =>
      have hs3 := upgradePip_uvPty ep s2
      rcases h3 : VirtualEnvironment.upgradePip ep s2 with ⟨pipEnsured, s3⟩
      rw [h3] at hs3
      cases pipEnsured with
      | false =>
        simp [VirtualEnvironment.reinstallRequirements, h1, h2, h3]
        exact hs3
      | true =>
        have hs4 := usingPty_uvPty mi s3
        rcases h4 : VirtualEnvironment.usingPty mi s3 with ⟨r4, s4⟩
        rw [h4] at hs4
        cases r4 <;> simp [VirtualEnvironment.reinstallRequirements, h1, h2, h3, h4] <;>
          exact hs4

/-- C7: every operation that acquires the interactive shell channel
(`#using` itself, `create`, `createVenv`, `upgradePip`,
`reinstallRequirements`) returns with the pty handle cleared, on the
success and the exception path alike, and any pty process live at the end
of the wrapped command has been killed — so at most one channel process
exists per environment between operations. -/
theorem C7_channel_teardown_invariant :
    (∀ (cmd : VirtualEnvironment.VEOp Unit) (s : VirtualEnvironment.VEState),
        (VirtualEnvironment.usingPty cmd s).2.uvPty = none) ∧
      (∀ (cmd : VirtualEnvironment.VEOp Unit) (s : VirtualEnvironment.VEState),
        (VirtualEnvironment.create cmd s).2.uvPty = none) ∧
      (∀ (cmd : VirtualEnvironment.VEOp Unit) (s : VirtualEnvironment.VEState),
        (VirtualEnvironment.createVenv cmd s).2.uvPty = none) ∧
      (∀ (cmd : VirtualEnvironment.VEOp Unit) (s : VirtualEnvironment.VEState),
        (VirtualEnvironment.upgradePip cmd s).2.uvPty = none) ∧
      (∀ (mi cv ep : VirtualEnvironment.VEOp Unit) (s : VirtualEnvironment.VEState),
        (VirtualEnvironment.reinstallRequirements mi cv ep s).2.uvPty = none) ∧
      (∀ (cmd : VirtualEnvironment.VEOp Unit) (s : VirtualEnvironment.VEState) (pid : Nat),
        (cmd s).2.uvPty = some pid →
          pid ∈ (VirtualEnvironment.usingPty cmd s).2.killedPids) :=
  ⟨fun cmd s => usingPty_uvPty cmd s, fun cmd s => usingPty_uvPty cmd s,
    fun cmd s => createVenv_uvPty cmd s, fun cmd s => upgradePip_uvPty cmd s,
    fun mi cv ep s => reinstallRequirements_uvPty mi cv ep s,
    fun cmd s pid h => usingPty_kills cmd s pid h⟩

/-- C7 witness: a command that leaves a live pty with pid 42; the wrapper
kills it. -/
theorem C7_channel_teardown_invariant_witness :
    ((fun _ : VirtualEnvironment.VEState =>
          ((Except.ok () : Except String Unit),
            ({ uvPty := some 42, killedPids := [] } : VirtualEnvironment.VEState)))
        ⟨none, []⟩).2.uvPty = some 42 ∧
      42 ∈ (VirtualEnvironment.usingPty
          (fun _ => (Except.ok (), { uvPty := some 42, killedPids := [] }))
          ⟨none, []⟩).2.killedPids :=
  ⟨rfl,
    C7_channel_teardown_invariant.2.2.2.2.2
      (fun _ => (Except.ok (), { uvPty := some 42, killedPids := [] })) ⟨none, []⟩ 42 rfl⟩

/-! ## C10: dry-run invocation failures throw instead of classifying -/

/-- `checkRequirements` succeeds exactly on a clean exit with non-empty
output, returning that output. -/
theorem checkRequirements_ok_iff (r : VirtualEnvironment.DryRunResult) (out : String) :
    VirtualEnvironment.checkRequirements r = .ok out ↔
      r.exitCode = some 0 ∧ r.output ≠ "" ∧ out = r.output := by
  unfold VirtualEnvironment.checkRequirements
  by_cases he : r.exitCode = some 0
  · by_cases ho : r.output = ""
    · simp [he, ho]
    · simp [he, ho]
      constructor
      · intro h
        exact h.symm
      · intro h
        exact h.symm
  · simp [he]

/-- A non-zero (or signal) exit or empty output makes `checkRequirements`
throw. -/
theorem checkRequirements_error_of (r : VirtualEnvironment.DryRunResult)
    (h : r.exitCode ≠ some 0 ∨ r.output = "") :
    ∃ e, VirtualEnvironment.checkRequirements r = .error e := by
  unfold VirtualEnvironment.checkRequirements
  by_cases he : r.exitCode = some 0
  · rcases h with h | h
    · exact absurd he h
    · exact ⟨"Failed to get packages: uv output was empty", by simp [he, h]⟩
  · exact ⟨"Failed to get packages: non-zero exit code", by simp [he]⟩

/-- C10: if either dry-run invocation exits with a non-zero code or a
signal (`exitCode` not 0), or produces empty combined output, then
`hasRequirements` throws rather than returning the error classification;
a `RequirementsStatus` is produced only when both invocations exit 0 with
non-empty output. -/
theorem C10_dry_run_failures_throw (core manager : VirtualEnvironment.DryRunResult) :
    ((core.exitCode ≠ some 0 ∨ core.output = "") →
        ∃ e, VirtualEnvironment.hasRequirements core manager = .error e) ∧
      ((manager.exitCode ≠ some 0 ∨ manager.output = "") →
        ∃ e, VirtualEnvironment.hasRequirements core manager = .error e) ∧
      (∀ st : RequirementsStatus, VirtualEnvironment.hasRequirements core manager = .ok st →
        core.exitCode = some 0 ∧ core.output ≠ "" ∧
          manager.exitCode = some 0 ∧ manager.output ≠ "") := by
  refine ⟨?_, ?_, ?_⟩
  · intro h
    obtain ⟨e, he⟩ := checkRequirements_error_of core h
    exact ⟨e, by simp [VirtualEnvironment.hasRequirements, he]⟩
  · intro h
    obtain ⟨e, he⟩ := checkRequirements_error_of manager h
    cases hc : VirtualEnvironment.checkRequirements core with
    | error e1 => exact ⟨e1, by simp [VirtualEnvironment.hasRequirements, hc]⟩
    | ok co => exact ⟨e, by simp [VirtualEnvironment.hasRequirements, hc, he]⟩
  · intro st h
    cases hc : VirtualEnvironment.checkRequirements core with
    | error e1 => simp [VirtualEnvironment.hasRequirements, hc] at h
    | ok co =>
      cases hm : VirtualEnvironment.checkRequirements manager with
      | error e2 => simp [VirtualEnvironment.hasRequirements, hc, hm] at h
      | ok mo =>
        have h1 := (checkRequirements_ok_iff core co).mp hc
        have h2 := (checkRequirements_ok_iff manager mo).mp hm
        exact ⟨h1.1, h1.2.1, h2.1, h2.2.1⟩

/-- C10 witness: a non-zero core exit, a signal-killed manager run, and a
clean pair all behave as the theorem states. -/
theorem C10_dry_run_failures_throw_witness :
    (∃ e, VirtualEnvironment.hasRequirements ⟨some 1, none, "out"⟩ ⟨some 0, none, "out"⟩ =
        .error e) ∧
      (∃ e, VirtualEnvironment.hasRequirements ⟨some 0, none, "a"⟩ ⟨none, some "SIGKILL", "b"⟩ =
        .error e) ∧
      ((⟨some 0, none, "a"⟩ : VirtualEnvironment.DryRunResult).exitCode = some 0 ∧
        (⟨some 0, none, "a"⟩ : VirtualEnvironment.DryRunResult).output ≠ "" ∧
        (⟨some 0, none, "b"⟩ : VirtualEnvironment.DryRunResult).exitCode = some 0 ∧
        (⟨some 0, none, "b"⟩ : VirtualEnvironment.DryRunResult).output ≠ "") :=
  ⟨(C10_dry_run_failures_throw ⟨some 1, none, "out"⟩ ⟨some 0, none, "out"⟩).1
      (Or.inl (by decide)),
    (C10_dry_run_failures_throw ⟨some 0, none, "a"⟩ ⟨none, some "SIGKILL", "b"⟩).2.1
      (Or.inl (by decide)),
    (C10_dry_run_failures_throw ⟨some 0, none, "a"⟩ ⟨some 0, none, "b"⟩).2.2
      (hasRequirementsClassify "a" "b") rfl⟩
